import Mathlib

/-!
Verification of the book build script (`build.py`).

The script converts an ordered list of markdown content files to HTML
sections, concatenates them with a cover page, a table of contents and an
inline style sheet into one HTML document, and renders that document to a
PDF with a headless browser engine.

Modelling conventions:
* the file system is a lookup `String → Option String` (filename to text);
* the external markdown library (`markdown.markdown`) is a black-box
  parameter `md : String → String` (the spec treats it as a pure
  text-to-text function);
* Python's `str.replace` (left-to-right, non-overlapping replacement of
  every occurrence) is embedded as `pyReplace`;
* the entry point and renderer are embedded as a state/trace machine over
  an explicit file-system state and an event trace, with the engine's
  possible failure points as an explicit parameter.
-/

namespace Build

/-- One step of Python's `str.replace` scan on character lists: at each
position, if the token matches, emit the replacement and skip the token,
otherwise keep the character and continue. -/
def replaceAux (tok rep : List Char) : List Char → List Char
  | [] => []
  | c :: cs =>
    if tok.isPrefixOf (c :: cs) then
      rep ++ replaceAux tok rep (cs.drop (tok.length - 1))
    else
      c :: replaceAux tok rep cs
termination_by l => l.length
decreasing_by
  · simp only [List.length_cons, List.length_drop]
    omega
  · simp only [List.length_cons]
    omega

/-- Python's `s.replace(tok, rep)` for a non-empty `tok`. -/
def pyReplace (s tok rep : String) : String :=
  ⟨replaceAux tok.data rep.data s.data⟩

/-- The two sequential replacements of `md_to_html` (build.py lines
118-120): first every `"[ ]"` becomes the disabled unchecked checkbox
input, then every `"[x]"` becomes the disabled checked checkbox input. -/
def checkboxSubst (html : String) : String :=
  pyReplace
    (pyReplace html "[ ]" "<input type=\"checkbox\" disabled>")
    "[x]" "<input type=\"checkbox\" checked disabled>"

/-- Whether `tok` occurs as a contiguous substring of `l`. -/
def hasTok (tok : List Char) : List Char → Bool
  | [] => tok.isEmpty
  | c :: cs => tok.isPrefixOf (c :: cs) || hasTok tok cs

/-- Modelled from the spec: single left-to-right scan that rewrites every
occurrence of the unchecked-box token to the disabled unchecked widget and
every occurrence of the checked-box token to the disabled checked widget,
leaving every other character unchanged.  (The spec's words for the
checkbox post-processing step.) -/
def specScan : List Char → List Char
  | [] => []
  | c :: cs =>
    if ['[', ' ', ']'].isPrefixOf (c :: cs) then
      "<input type=\"checkbox\" disabled>".data ++ specScan (cs.drop 2)
    else if ['[', 'x', ']'].isPrefixOf (c :: cs) then
      "<input type=\"checkbox\" checked disabled>".data ++ specScan (cs.drop 2)
    else
      c :: specScan cs
termination_by l => l.length
decreasing_by
  · simp only [List.length_cons, List.length_drop]
    omega
  · simp only [List.length_cons, List.length_drop]
    omega
  · simp only [List.length_cons]
    omega

/-- Modelled from the spec: the checkbox-token substitution as a single
simultaneous pass over the converted output. -/
def specCheckboxSubst (s : String) : String :=
  ⟨specScan s.data⟩

/-- The section wrapper of `md_to_html` (build.py line 121): every
converted unit, chapter or exercise alike, is wrapped in a `div` with the
single CSS class `chapter`. -/
def wrapChapter (html : String) : String :=
  "<div class=\"chapter\">\n" ++ html ++ "\n</div>"

/-- `md_to_html` (build.py lines 105-123): walk the configured filename
list in order; a missing file produces a warning and is skipped, a present
file is converted by the markdown library, checkbox-substituted and
wrapped.  Returns the section list and the list of warned filenames. -/
def md_to_html (md : String → String) (source_dir : String → Option String) :
    List String → List String × List String
  | [] => ([], [])
  | filename :: rest =>
    let t := md_to_html md source_dir rest
    match source_dir filename with
    | none => (t.1, filename :: t.2)
    | some md_text => (wrapChapter (checkboxSubst (md md_text)) :: t.1, t.2)

/-- The configured chapter filename list (build.py lines 32-46). -/
def CHAPTERS : List String :=
  ["chapter-01-ai-landscape.md",
   "chapter-02-how-llms-work.md",
   "chapter-03-threat-modeling.md",
   "chapter-04-prompt-injection.md",
   "chapter-05-jailbreaks-guardrail-bypass.md",
   "chapter-06-data-leakage-privacy.md",
   "chapter-07-secure-ai-design.md",
   "chapter-08-supply-chain-security.md",
   "chapter-09-reference-architectures.md",
   "chapter-10-ai-security-program.md",
   "appendix-a-cheat-sheet.md",
   "appendix-b-tools-resources.md",
   "appendix-c-glossary.md"]

/-- The configured exercise filename list (build.py lines 49-55). -/
def EXERCISES : List String :=
  ["exercise-01-threat-model-chatbot.md",
   "exercise-02-prompt-injection-lab.md",
   "exercise-03-design-review.md",
   "exercise-04-supply-chain-audit.md",
   "exercise-05-architecture-challenge.md"]

/-- The static cover block (build.py lines 59-68). -/
def COVER : String :=
  "\n<div class=\"cover-page\">\n    <h1>AI Security Architecture</h1>\n    <div class=\"subtitle\">A Practical Guide to Securing LLM-Powered Systems</div>\n    <div class=\"edition\">Threat Modeling &bull; Secure Design &bull; Reference Architectures &bull; 2026 Edition</div>\n    <div class=\"tagline\">\n        10 chapters &bull; 5 hands-on exercises &bull; No AI/ML experience required\n    </div>\n</div>\n"

/-- The statically enumerated (title, is_chapter) navigation entries
(build.py lines 72-87). -/
def TOC_ENTRIES : List (String × Bool) :=
  [("Chapter 1: The AI Security Landscape", true),
   ("Chapter 2: How LLMs Work (Just Enough to Secure Them)", true),
   ("Chapter 3: Threat Modeling AI Systems", true),
   ("Chapter 4: Prompt Injection", true),
   ("Chapter 5: Jailbreaks & Guardrail Bypass", true),
   ("Chapter 6: Data Leakage & Privacy", true),
   ("Chapter 7: Secure AI System Design", true),
   ("Chapter 8: AI Supply Chain Security", true),
   ("Chapter 9: Reference Architectures", true),
   ("Chapter 10: Building Your AI Security Program", true),
   ("Appendix A: AI Security Cheat Sheet", false),
   ("Appendix B: Tools & Resources", false),
   ("Appendix C: Glossary", false),
   ("Exercises", false)]

/-- One `<li>` item of the navigation outline: the boolean flag selects
the `chapter-entry` versus `appendix-entry` CSS class (build.py lines
92-94). -/
def tocItem (entry : String × Bool) : String :=
  "<li class=\"" ++ (if entry.2 then "chapter-entry" else "appendix-entry") ++ "\">"
    ++ entry.1 ++ "</li>"

/-- `build_toc` (build.py lines 90-102). -/
def build_toc (entries : List (String × Bool)) : String :=
  "\n<div class=\"toc\">\n    <h1>Table of Contents</h1>\n    <ul>\n        "
    ++ String.join (entries.map tocItem)
    ++ "\n    </ul>\n</div>\n"

/-- The document head up to the inlined style sheet text (part of the
f-string of build.py lines 140-147). -/
def docHead (css : String) : String :=
  "<!DOCTYPE html>\n<html lang=\"en\">\n<head>\n    <meta charset=\"UTF-8\">\n    <style>\n"
    ++ css ++ "\n    </style>\n</head>\n<body>\n"

/-- The closing tail of the document template (build.py lines 152-153). -/
def docTail : String := "\n</body>\n</html>"

/-- `build_document` minus the style-sheet read (build.py lines 130-153):
assemble head, cover, table of contents and all sections into the complete
HTML document. -/
def build_document (md : String → String) (css : String)
    (content_dir exercises_dir : String → Option String) : String :=
  let chapter_sections := (md_to_html md content_dir CHAPTERS).1
  let exercise_sections := (md_to_html md exercises_dir EXERCISES).1
  let all_sections := chapter_sections ++ exercise_sections
  docHead css ++ COVER ++ "\n" ++ build_toc TOC_ENTRIES ++ "\n"
    ++ String.join all_sections ++ docTail

/-- The errors the build can abort with: a failed style-sheet read
(build.py line 128) or a failure of one engine step inside `render_pdf`
(build.py lines 160-183).  All are propagated uncaught. -/
inductive BuildErr where
  | styleUnreadable
  | engineLaunchFail
  | engineGotoFail
  | engineWaitFail
  | enginePdfFail
  deriving DecidableEq, Repr

/-- `build_document` including its first statement, the style-sheet read
(build.py line 128): a missing or unreadable style sheet raises before any
content is processed; otherwise the assembled document text and the
missing-file warnings are produced. -/
def build_document_run (md : String → String) (style_file : Option String)
    (content_dir exercises_dir : String → Option String) :
    Except BuildErr (String × List String) :=
  match style_file with
  | none => .error .styleUnreadable
  | some css =>
    .ok (build_document md css content_dir exercises_dir,
         (md_to_html md content_dir CHAPTERS).2 ++ (md_to_html md exercises_dir EXERCISES).2)

/-- The file-system state the script touches: the style sheet, the two
content directories, the intermediate HTML artifact, the final PDF
artifact and the output directory.  The PDF artifact records the HTML text
it was rendered from (the engine itself is a black box). -/
structure FSState where
  style_file : Option String
  content_dir : String → Option String
  exercises_dir : String → Option String
  html_file : Option String
  pdf_file : Option String
  output_dir_exists : Bool

/-- Observable events of one run, in order. -/
inductive Event where
  | warned (filename : String)
  | htmlWritten (content : String)
  | engineStarted
  | browserLaunched
  | pageOpened
  | loadAwaited
  | pdfWritten
  | browserClosed
  | engineStopped
  | htmlDeleted
  deriving DecidableEq, Repr

/-- Which engine step, if any, fails during rendering.  The engine is
external; every failure mode it can exhibit is represented. -/
inductive EngineOutcome where
  | ok
  | failLaunch
  | failGoto
  | failWait
  | failPdf
  deriving DecidableEq, Repr

/-- The body of the `with sync_playwright()` block (build.py lines
161-183): launch, open the artifact, await load quiescence, paginate,
close the browser — cut short at the failing step, if any. -/
def engineBody : EngineOutcome → List Event × Option BuildErr
  | .failLaunch => ([], some .engineLaunchFail)
  | .failGoto => ([.browserLaunched], some .engineGotoFail)
  | .failWait => ([.browserLaunched, .pageOpened], some .engineWaitFail)
  | .failPdf => ([.browserLaunched, .pageOpened, .loadAwaited], some .enginePdfFail)
  | .ok => ([.browserLaunched, .pageOpened, .loadAwaited, .pdfWritten, .browserClosed], none)

/-- The `with sync_playwright()` scope (build.py line 160): the engine is
started on entry and stopped on exit, whether the body completed or
raised. -/
def withPlaywright (body : List Event × Option BuildErr) : List Event × Option BuildErr :=
  (Event.engineStarted :: body.1 ++ [Event.engineStopped], body.2)

/-- `render_pdf` (build.py lines 156-186): write the document text
verbatim to the HTML artifact path, then drive the engine inside the
scoped acquisition; on success the PDF artifact records the rendered
document. -/
def render_pdf (html_content : String) (outcome : EngineOutcome) (st : FSState) :
    FSState × List Event × Option BuildErr :=
  let st1 := { st with html_file := some html_content }
  let t := withPlaywright (engineBody outcome)
  let st2 := if t.2.isNone then { st1 with pdf_file := some html_content } else st1
  (st2, Event.htmlWritten html_content :: t.1, t.2)

/-- `HTML_FILE.unlink(missing_ok=True)` (build.py line 198): deletion
succeeds whether or not the file exists; it never raises. -/
def unlink_missing_ok (_file : Option String) : Option String := none

/-- `main` (build.py lines 189-200): create the output directory, build
the document, render it, and delete the intermediate HTML artifact unless
the retain flag was passed.  An error from any step propagates uncaught
and skips everything after it. -/
def main_run (md : String → String) (save_html : Bool) (outcome : EngineOutcome)
    (st0 : FSState) : FSState × List Event × Option BuildErr :=
  let st1 := { st0 with output_dir_exists := true }
  match build_document_run md st0.style_file st0.content_dir st0.exercises_dir with
  | .error e => (st1, [], some e)
  | .ok (html, warns) =>
    let r := render_pdf html outcome st1
    let trace := warns.map Event.warned ++ r.2.1
    match r.2.2 with
    | some e => (r.1, trace, some e)
    | none =>
      if save_html then (r.1, trace, none)
      else ({ r.1 with html_file := unlink_missing_ok r.1.html_file },
            trace ++ [Event.htmlDeleted], none)

/-- Character-list form of the unchecked-checkbox widget. -/
def uWidgetData : List Char := "<input type=\"checkbox\" disabled>".data

/-- Character-list form of the checked-checkbox widget. -/
def xWidgetData : List Char := "<input type=\"checkbox\" checked disabled>".data

/-- A concrete two-file directory used to evaluate the theorems on
concrete inputs. -/
def removalDisk : String → Option String := fun g =>
  if g = "a.md" then some "A" else if g = "b.md" then some "B" else none

/-- A concrete directory holding one configured chapter file. -/
def chapDisk : String → Option String := fun g =>
  if g = "chapter-01-ai-landscape.md" then some "hello" else none

/-- A concrete initial file-system state without a style sheet. -/
def noStyleState : FSState :=
  { style_file := none
    content_dir := fun _ => none
    exercises_dir := fun _ => none
    html_file := none
    pdf_file := none
    output_dir_exists := false }

/-- A concrete initial file-system state with a readable style sheet. -/
def demoState : FSState :=
  { style_file := some "cssText"
    content_dir := removalDisk
    exercises_dir := fun _ => none
    html_file := none
    pdf_file := none
    output_dir_exists := false }

-- Unfolding lemmas for `replaceAux`.

theorem replaceAux_nil (tok rep : List Char) : replaceAux tok rep [] = [] := by
  simp [replaceAux]

theorem replaceAux_cons_pos (tok rep : List Char) (c : Char) (cs : List Char)
    (h : tok.isPrefixOf (c :: cs) = true) :
    replaceAux tok rep (c :: cs) = rep ++ replaceAux tok rep (cs.drop (tok.length - 1)) := by
  rw [replaceAux]
  simp [h]

theorem replaceAux_cons_neg (tok rep : List Char) (c : Char) (cs : List Char)
    (h : tok.isPrefixOf (c :: cs) = false) :
    replaceAux tok rep (c :: cs) = c :: replaceAux tok rep cs := by
  rw [replaceAux]
  simp [h]

theorem isPrefixOf_head_ne {a b : Char} (as bs : List Char) (h : ¬ a = b) :
    (a :: as).isPrefixOf (b :: bs) = false := by
  rw [List.isPrefixOf_cons₂]
  simp [beq_eq_false_iff_ne.mpr h]

theorem shape3 {a b c3 : Char} {l : List Char} (h : [a, b, c3].isPrefixOf l = true) :
    ∃ rest, l = a :: b :: c3 :: rest := by
  match l with
  | [] => simp at h
  | [x] => simp [List.isPrefixOf_cons₂] at h
  | [x, y] => simp [List.isPrefixOf_cons₂] at h
  | x :: y :: z :: rest =>
    simp only [List.isPrefixOf_cons₂, List.isPrefixOf_nil_left, Bool.and_true,
      Bool.and_eq_true, beq_iff_eq] at h
    exact ⟨rest, by rw [h.1, h.2.1, h.2.2]⟩

theorem replaceAux_append_no_lb (t r : List Char) (a b : List Char)
    (h : ∀ x ∈ a, ¬ x = '[') :
    replaceAux ('[' :: t) r (a ++ b) = a ++ replaceAux ('[' :: t) r b := by
  induction a with
  | nil => simp
  | cons y a2 ih =>
    have hy : ¬ y = '[' := h y (List.mem_cons_self y a2)
    rw [List.cons_append,
      replaceAux_cons_neg _ _ _ _ (isPrefixOf_head_ne _ _ (fun he => hy he.symm)),
      ih (fun x hx => h x (List.mem_cons_of_mem y hx)), List.cons_append]

theorem uWidget_no_lb : ∀ x ∈ uWidgetData, ¬ x = '[' := by decide

theorem xWidget_no_lb : ∀ x ∈ xWidgetData, ¬ x = '[' := by decide

theorem replaceU_keeps_no_rb (cs : List Char)
    (h : [']'].isPrefixOf cs = false) :
    [']'].isPrefixOf (replaceAux ['[', ' ', ']'] uWidgetData cs) = false := by
  match cs with
  | [] => simp [replaceAux_nil]
  | d :: cs2 =>
    by_cases hp : ['[', ' ', ']'].isPrefixOf (d :: cs2) = true
    · rw [replaceAux_cons_pos _ _ _ _ hp]
      exact isPrefixOf_head_ne _ _ (by decide)
    · rw [replaceAux_cons_neg _ _ _ _ (Bool.eq_false_iff.mpr hp)]
      have hd : ¬ (']' : Char) = d := by
        intro he
        rw [← he] at h
        simp [List.isPrefixOf_cons₂] at h
      exact isPrefixOf_head_ne _ _ hd

theorem replaceU_keeps_no_xrb (cs : List Char)
    (h : ['x', ']'].isPrefixOf cs = false) :
    ['x', ']'].isPrefixOf (replaceAux ['[', ' ', ']'] uWidgetData cs) = false := by
  match cs with
  | [] => simp [replaceAux_nil]
  | d :: cs2 =>
    by_cases hp : ['[', ' ', ']'].isPrefixOf (d :: cs2) = true
    · rw [replaceAux_cons_pos _ _ _ _ hp]
      exact isPrefixOf_head_ne _ _ (by decide)
    · rw [replaceAux_cons_neg _ _ _ _ (Bool.eq_false_iff.mpr hp)]
      by_cases hd : ('x' : Char) = d
      · subst hd
        rw [List.isPrefixOf_cons₂] at h ⊢
        simp only [beq_self_eq_true, Bool.true_and] at h ⊢
        exact replaceU_keeps_no_rb cs2 h
      · exact isPrefixOf_head_ne _ _ hd

theorem specScan_nil : specScan [] = [] := by
  simp [specScan]

theorem specScan_cons_u (c : Char) (cs : List Char)
    (h : ['[', ' ', ']'].isPrefixOf (c :: cs) = true) :
    specScan (c :: cs) = uWidgetData ++ specScan (cs.drop 2) := by
  rw [specScan]
  simp [h, uWidgetData]

theorem specScan_cons_x (c : Char) (cs : List Char)
    (h1 : ['[', ' ', ']'].isPrefixOf (c :: cs) = false)
    (h2 : ['[', 'x', ']'].isPrefixOf (c :: cs) = true) :
    specScan (c :: cs) = xWidgetData ++ specScan (cs.drop 2) := by
  rw [specScan]
  simp [h1, h2, xWidgetData]

theorem specScan_cons_other (c : Char) (cs : List Char)
    (h1 : ['[', ' ', ']'].isPrefixOf (c :: cs) = false)
    (h2 : ['[', 'x', ']'].isPrefixOf (c :: cs) = false) :
    specScan (c :: cs) = c :: specScan cs := by
  rw [specScan]
  simp [h1, h2]

/-- Core equivalence: the two sequential `str.replace` passes of the code
equal the spec's single simultaneous scan. -/
theorem twoPass_eq_specScan (l : List Char) :
    replaceAux ['[', 'x', ']'] xWidgetData
      (replaceAux ['[', ' ', ']'] uWidgetData l) = specScan l := by
  induction l using specScan.induct with
  | case1 => simp [replaceAux_nil, specScan_nil]
  | case2 c cs h ih =>
    obtain ⟨rest, hr⟩ := shape3 h
    injection hr with ha hb
    subst ha
    subst hb
    rw [specScan_cons_u _ _ h, replaceAux_cons_pos _ _ _ _ h]
    rw [show List.drop (['[', ' ', ']'].length - 1) (' ' :: ']' :: rest) = rest from rfl]
    rw [show List.drop 2 (' ' :: ']' :: rest) = rest from rfl] at ih
    rw [replaceAux_append_no_lb _ _ _ _ uWidget_no_lb, ih]
    rfl
  | case3 c cs h1 h2 ih =>
    obtain ⟨rest, hr⟩ := shape3 h2
    injection hr with ha hb
    subst ha
    subst hb
    rw [specScan_cons_x _ _ (Bool.eq_false_iff.mpr h1) h2]
    rw [show List.drop 2 ('x' :: ']' :: rest) = rest from rfl] at ih
    rw [replaceAux_cons_neg ['[', ' ', ']'] uWidgetData '['
      ('x' :: ']' :: rest) (Bool.eq_false_iff.mpr h1)]
    rw [replaceAux_cons_neg ['[', ' ', ']'] uWidgetData 'x'
      (']' :: rest) (isPrefixOf_head_ne _ _ (by decide))]
    rw [replaceAux_cons_neg ['[', ' ', ']'] uWidgetData ']'
      rest (isPrefixOf_head_ne _ _ (by decide))]
    rw [replaceAux_cons_pos ['[', 'x', ']'] xWidgetData '['
      ('x' :: ']' :: replaceAux ['[', ' ', ']'] uWidgetData rest)
      (by simp [List.isPrefixOf_cons₂])]
    rw [show List.drop (['[', 'x', ']'].length - 1)
      ('x' :: ']' :: replaceAux ['[', ' ', ']'] uWidgetData rest) =
      replaceAux ['[', ' ', ']'] uWidgetData rest from rfl]
    rw [ih]
    rfl
  | case4 c cs h1 h2 ih =>
    rw [specScan_cons_other c cs (Bool.eq_false_iff.mpr h1) (Bool.eq_false_iff.mpr h2)]
    rw [replaceAux_cons_neg _ _ _ _ (Bool.eq_false_iff.mpr h1)]
    by_cases hc : c = '['
    · subst hc
      have hx2 : ['x', ']'].isPrefixOf cs = false := by
        have := Bool.eq_false_iff.mpr h2
        rw [List.isPrefixOf_cons₂] at this
        simpa using this
      rw [replaceAux_cons_neg _ _ _ _ (by
        rw [List.isPrefixOf_cons₂]
        simp only [beq_self_eq_true, Bool.true_and]
        exact replaceU_keeps_no_xrb cs hx2)]
      rw [ih]
    · rw [replaceAux_cons_neg _ _ _ _ (isPrefixOf_head_ne _ _ (fun he => hc he.symm))]
      rw [ih]

theorem checkboxSubst_data_eq (s : String) :
    checkboxSubst s =
      ⟨replaceAux ['[', 'x', ']'] xWidgetData
        (replaceAux ['[', ' ', ']'] uWidgetData s.data)⟩ := rfl

/-- C2: for every input text, after markup conversion every occurrence of
the literal token `[ ]` in the converted output becomes the disabled
unchecked checkbox widget, every occurrence of `[x]` becomes the disabled
checked checkbox widget, and all other characters are unchanged: the
code's two sequential replacements coincide with the spec's simultaneous
single-pass substitution. -/
theorem checkboxSubst_eq_specCheckboxSubst (s : String) :
    checkboxSubst s = specCheckboxSubst s := by
  rw [checkboxSubst_data_eq, specCheckboxSubst, twoPass_eq_specScan]

theorem replaceAux_no_occurrence (tok rep : List Char) (l : List Char)
    (h : hasTok tok l = false) : replaceAux tok rep l = l := by
  induction l with
  | nil => exact replaceAux_nil tok rep
  | cons c cs ih =>
    rw [hasTok] at h
    simp only [Bool.or_eq_false_iff] at h
    rw [replaceAux_cons_neg _ _ _ _ h.1, ih h.2]

theorem md_to_html_nil (md : String → String) (dir : String → Option String) :
    md_to_html md dir [] = ([], []) := rfl

theorem md_to_html_cons_none (md : String → String) (dir : String → Option String)
    (f : String) (fns : List String) (h : dir f = none) :
    md_to_html md dir (f :: fns) =
      ((md_to_html md dir fns).1, f :: (md_to_html md dir fns).2) := by
  simp [md_to_html, h]

theorem md_to_html_cons_some (md : String → String) (dir : String → Option String)
    (f t : String) (fns : List String) (h : dir f = some t) :
    md_to_html md dir (f :: fns) =
      (wrapChapter (checkboxSubst (md t)) :: (md_to_html md dir fns).1,
       (md_to_html md dir fns).2) := by
  simp [md_to_html, h]

theorem md_to_html_sections_eq_filterMap (md : String → String)
    (dir : String → Option String) (fns : List String) :
    (md_to_html md dir fns).1 =
      fns.filterMap (fun f => (dir f).map (fun t => wrapChapter (checkboxSubst (md t)))) := by
  induction fns with
  | nil => rfl
  | cons f rest ih =>
    cases h : dir f with
    | none => rw [md_to_html_cons_none _ _ _ _ h]; simp [h, ih]
    | some t => rw [md_to_html_cons_some _ _ _ _ _ h]; simp [h, ih]

theorem md_to_html_warns_eq_filter (md : String → String)
    (dir : String → Option String) (fns : List String) :
    (md_to_html md dir fns).2 = fns.filter (fun f => (dir f).isNone) := by
  induction fns with
  | nil => rfl
  | cons f rest ih =>
    cases h : dir f with
    | none => rw [md_to_html_cons_none _ _ _ _ h]; simp [h, ih]
    | some t => rw [md_to_html_cons_some _ _ _ _ _ h]; simp [h, ih]

theorem md_to_html_append (md : String → String) (dir : String → Option String)
    (a b : List String) :
    md_to_html md dir (a ++ b) =
      ((md_to_html md dir a).1 ++ (md_to_html md dir b).1,
       (md_to_html md dir a).2 ++ (md_to_html md dir b).2) := by
  induction a with
  | nil => simp [md_to_html_nil]
  | cons f rest ih =>
    cases h : dir f with
    | none =>
      rw [List.cons_append, md_to_html_cons_none _ _ _ _ h,
        md_to_html_cons_none _ _ _ _ h, ih]
      simp
    | some t =>
      rw [List.cons_append, md_to_html_cons_some _ _ _ _ _ h,
        md_to_html_cons_some _ _ _ _ _ h, ih]
      simp

theorem md_to_html_congr (md : String → String) (dir1 dir2 : String → Option String)
    (fns : List String) (h : ∀ f ∈ fns, dir1 f = dir2 f) :
    md_to_html md dir1 fns = md_to_html md dir2 fns := by
  induction fns with
  | nil => rfl
  | cons f rest ih =>
    have hf : dir1 f = dir2 f := h f (List.mem_cons_self f rest)
    have hrest := ih (fun g hg => h g (List.mem_cons_of_mem f hg))
    cases h2 : dir2 f with
    | none =>
      rw [md_to_html_cons_none _ _ _ _ (hf.trans h2),
        md_to_html_cons_none _ _ _ _ h2, hrest]
    | some t =>
      rw [md_to_html_cons_some _ _ _ _ _ (hf.trans h2),
        md_to_html_cons_some _ _ _ _ _ h2, hrest]

theorem foldl_append_eq (l : List String) :
    ∀ init, l.foldl (fun r s => r ++ s) init = init ++ l.foldl (fun r s => r ++ s) "" := by
  induction l with
  | nil => intro init; simp
  | cons x xs ih =>
    intro init
    simp only [List.foldl_cons]
    rw [ih (init ++ x), ih ("" ++ x), String.empty_append, String.append_assoc]

theorem string_join_cons (x : String) (xs : List String) :
    String.join (x :: xs) = x ++ String.join xs := by
  simp only [String.join, List.foldl_cons]
  rw [foldl_append_eq, String.empty_append]

theorem string_join_append (a b : List String) :
    String.join (a ++ b) = String.join a ++ String.join b := by
  induction a with
  | nil => simp [String.join]
  | cons x xs ih =>
    rw [List.cons_append, string_join_cons, string_join_cons, ih, String.append_assoc]

/-- C4: a missing or unreadable style sheet aborts the run with an
uncaught error before the rendering engine is ever invoked: nothing is
written to the intermediate or final artifact path, no warning or engine
event is emitted, and the whole observable run is the empty trace plus the
propagated error. -/
theorem missing_style_aborts (md : String → String) (save_html : Bool)
    (outcome : EngineOutcome) (st0 : FSState) (h : st0.style_file = none) :
    main_run md save_html outcome st0 =
      ({ st0 with output_dir_exists := true }, [], some BuildErr.styleUnreadable)
    ∧ (main_run md save_html outcome st0).1.html_file = st0.html_file
    ∧ (main_run md save_html outcome st0).1.pdf_file = st0.pdf_file
    ∧ (main_run md save_html outcome st0).2.1 = []
    ∧ Event.engineStarted ∉ (main_run md save_html outcome st0).2.1
    ∧ (∀ c, Event.htmlWritten c ∉ (main_run md save_html outcome st0).2.1) := by
  simp [main_run, build_document_run, h]

/-- C8: the rendering engine instance is released unconditionally: for
every engine outcome, successful or failing at any step, the renderer's
trace is the artifact write, the scoped engine start, the body events and
finally the engine shutdown — so the shutdown happens before `render_pdf`
returns or propagates the error. -/
theorem engine_released_unconditionally (html : String) (outcome : EngineOutcome)
    (st : FSState) :
    (∃ body, (render_pdf html outcome st).2.1 =
      Event.htmlWritten html :: Event.engineStarted :: body ++ [Event.engineStopped])
    ∧ Event.engineStopped ∈ (render_pdf html outcome st).2.1 := by
  cases outcome with
  | ok =>
    exact ⟨⟨[.browserLaunched, .pageOpened, .loadAwaited, .pdfWritten, .browserClosed],
      by simp [render_pdf, withPlaywright, engineBody]⟩,
      by simp [render_pdf, withPlaywright, engineBody]⟩
  | failLaunch =>
    exact ⟨⟨[], by simp [render_pdf, withPlaywright, engineBody]⟩,
      by simp [render_pdf, withPlaywright, engineBody]⟩
  | failGoto =>
    exact ⟨⟨[.browserLaunched], by simp [render_pdf, withPlaywright, engineBody]⟩,
      by simp [render_pdf, withPlaywright, engineBody]⟩
  | failWait =>
    exact ⟨⟨[.browserLaunched, .pageOpened],
      by simp [render_pdf, withPlaywright, engineBody]⟩,
      by simp [render_pdf, withPlaywright, engineBody]⟩
  | failPdf =>
    exact ⟨⟨[.browserLaunched, .pageOpened, .loadAwaited],
      by simp [render_pdf, withPlaywright, engineBody]⟩,
      by simp [render_pdf, withPlaywright, engineBody]⟩

/-- C6: the renderer's first action writes the assembled document text
verbatim to the intermediate artifact path; after a successful rendering,
with the retain flag absent the entry point deletes the intermediate
artifact by a deletion that tolerates absence (it is total on a missing
file), and with the retain flag set the intermediate artifact remains on
disk holding exactly the assembled document text. -/
theorem intermediate_artifact_lifecycle (md : String → String) (st0 : FSState)
    (css : String) (outcome : EngineOutcome) (html : String)
    (hstyle : st0.style_file = some css) :
    (∀ st, (render_pdf html outcome st).2.1 =
        Event.htmlWritten html :: (withPlaywright (engineBody outcome)).1
      ∧ (render_pdf html outcome st).1.html_file = some html)
    ∧ (∀ g, unlink_missing_ok g = none)
    ∧ (outcome = EngineOutcome.ok →
        (main_run md false outcome st0).1.html_file = none
        ∧ (main_run md false outcome st0).2.2 = none)
    ∧ (outcome = EngineOutcome.ok →
        (main_run md true outcome st0).1.html_file =
          some (build_document md css st0.content_dir st0.exercises_dir)
        ∧ (main_run md true outcome st0).2.2 = none) := by
  refine ⟨fun st => ⟨rfl, by simp [render_pdf]; split <;> rfl⟩, fun g => rfl, ?_, ?_⟩
  · intro ho
    subst ho
    simp [main_run, build_document_run, hstyle, render_pdf, withPlaywright,
      engineBody, unlink_missing_ok]
  · intro ho
    subst ho
    simp [main_run, build_document_run, hstyle, render_pdf, withPlaywright,
      engineBody]

theorem filterMap_map_length (dir : String → Option String) (h : String → String)
    (fns : List String) :
    (fns.filterMap (fun g => (dir g).map h)).length =
      (fns.filter (fun g => (dir g).isSome)).length := by
  induction fns with
  | nil => rfl
  | cons f rest ih => cases hf : dir f <;> simp [hf, ih]

/-- C1: the assembled document has one section per present configured
file; primary sections appear in the configured list order with
supplementary sections after them; removing one configured filename from
the backing directory removes exactly that file's section, leaving the
remaining sections in the same order and lowering the count by exactly
one. -/
theorem section_order_and_removal (md : String → String)
    (dir dirE : String → Option String) (css : String)
    (l1 l2 : List String) (f t : String)
    (hf : dir f = some t) (h1 : f ∉ l1) (h2 : f ∉ l2) :
    ((md_to_html md dir (l1 ++ f :: l2)).1.length =
      ((l1 ++ f :: l2).filter (fun g => (dir g).isSome)).length)
    ∧ (build_document md css dir dirE =
        docHead css ++ COVER ++ "\n" ++ build_toc TOC_ENTRIES ++ "\n"
          ++ String.join ((md_to_html md dir CHAPTERS).1 ++ (md_to_html md dirE EXERCISES).1)
          ++ docTail)
    ∧ ((md_to_html md dir (l1 ++ f :: l2)).1 =
        (md_to_html md dir l1).1
          ++ wrapChapter (checkboxSubst (md t)) :: (md_to_html md dir l2).1)
    ∧ ((md_to_html md (fun g => if g = f then none else dir g) (l1 ++ f :: l2)).1 =
        (md_to_html md dir l1).1 ++ (md_to_html md dir l2).1)
    ∧ ((md_to_html md (fun g => if g = f then none else dir g) (l1 ++ f :: l2)).1.length + 1 =
        (md_to_html md dir (l1 ++ f :: l2)).1.length) := by
  have hc : (md_to_html md dir (l1 ++ f :: l2)).1 =
      (md_to_html md dir l1).1
        ++ wrapChapter (checkboxSubst (md t)) :: (md_to_html md dir l2).1 := by
    rw [md_to_html_append, md_to_html_cons_some _ _ _ _ _ hf]
  have hcong1 : md_to_html md (fun g => if g = f then none else dir g) l1 =
      md_to_html md dir l1 :=
    md_to_html_congr _ _ _ _ (fun g hg => by
      simp [show ¬ g = f from fun he => h1 (he ▸ hg)])
  have hcong2 : md_to_html md (fun g => if g = f then none else dir g) l2 =
      md_to_html md dir l2 :=
    md_to_html_congr _ _ _ _ (fun g hg => by
      simp [show ¬ g = f from fun he => h2 (he ▸ hg)])
  have hd : (md_to_html md (fun g => if g = f then none else dir g) (l1 ++ f :: l2)).1 =
      (md_to_html md dir l1).1 ++ (md_to_html md dir l2).1 := by
    rw [md_to_html_append,
      md_to_html_cons_none _ _ _ _ (by simp : (if f = f then none else dir f) = none),
      hcong1, hcong2]
  refine ⟨?_, rfl, hc, hd, ?_⟩
  · rw [md_to_html_sections_eq_filterMap]
    exact filterMap_map_length dir _ _
  · rw [hc, hd]
    simp only [List.length_append, List.length_cons]
    omega

/-- C3: a configured filename whose file is absent from its source
directory is warned about, omitted from the section list, and never
aborts the build: the warnings are exactly the absent configured names,
the sections are exactly the converted present files, and the assembler
succeeds for every pair of directories whenever the style sheet is
readable. -/
theorem missing_unit_nonfatal (md : String → String)
    (dir dirE : String → Option String) (fns : List String) (f : String)
    (hmem : f ∈ fns) (habs : dir f = none) :
    f ∈ (md_to_html md dir fns).2
    ∧ (md_to_html md dir fns).2 = fns.filter (fun g => (dir g).isNone)
    ∧ (md_to_html md dir fns).1 =
        fns.filterMap (fun g => (dir g).map (fun t => wrapChapter (checkboxSubst (md t))))
    ∧ (∀ css, ∃ out, build_document_run md (some css) dir dirE = Except.ok out) := by
  refine ⟨?_, md_to_html_warns_eq_filter md dir fns,
    md_to_html_sections_eq_filterMap md dir fns, fun css => ⟨_, rfl⟩⟩
  rw [md_to_html_warns_eq_filter]
  exact List.mem_filter.mpr ⟨hmem, by simp [habs]⟩

/-- C5: the assembled document is exactly the concatenation of the head
with the raw style-sheet text inlined, the static cover block, the
navigation outline generated from the static `(title, flag)` list whose
flag picks the `chapter-entry` versus `appendix-entry` CSS class, all
primary sections in order, all supplementary sections in order, and the
closing tail; the outline entry count does not even agree with the
content filename lists, which shows it is not derived from or validated
against them. -/
theorem document_assembly_layout (md : String → String) (css : String)
    (dirC dirE : String → Option String) :
    build_document md css dirC dirE =
      docHead css ++ COVER ++ "\n" ++ build_toc TOC_ENTRIES ++ "\n"
        ++ String.join (md_to_html md dirC CHAPTERS).1
        ++ String.join (md_to_html md dirE EXERCISES).1 ++ docTail
    ∧ docHead css =
        "<!DOCTYPE html>\n<html lang=\"en\">\n<head>\n    <meta charset=\"UTF-8\">\n    <style>\n"
          ++ css ++ "\n    </style>\n</head>\n<body>\n"
    ∧ (∀ (title : String) (flag : Bool), tocItem (title, flag) =
        "<li class=\"" ++ (if flag then "chapter-entry" else "appendix-entry") ++ "\">"
          ++ title ++ "</li>")
    ∧ build_toc TOC_ENTRIES =
        "\n<div class=\"toc\">\n    <h1>Table of Contents</h1>\n    <ul>\n        "
          ++ String.join (TOC_ENTRIES.map tocItem) ++ "\n    </ul>\n</div>\n"
    ∧ TOC_ENTRIES.length ≠ CHAPTERS.length + EXERCISES.length := by
  refine ⟨?_, rfl, fun title flag => rfl, rfl, by decide⟩
  show docHead css ++ COVER ++ "\n" ++ build_toc TOC_ENTRIES ++ "\n"
    ++ String.join ((md_to_html md dirC CHAPTERS).1 ++ (md_to_html md dirE EXERCISES).1)
    ++ docTail = _
  rw [string_join_append]
  simp only [String.append_assoc]

/-- C7: the text conversion step is a pure, deterministic function of its
input text: equal inputs give byte-identical converted fragments, and the
section builder's output depends only on the directory contents it reads,
with no other state. -/
theorem conversion_deterministic (md : String → String) (t1 t2 : String)
    (h : t1 = t2) (dir1 dir2 : String → Option String) (fns : List String)
    (hdir : ∀ g ∈ fns, dir1 g = dir2 g) :
    checkboxSubst (md t1) = checkboxSubst (md t2)
    ∧ md_to_html md dir1 fns = md_to_html md dir2 fns :=
  ⟨by rw [h], md_to_html_congr md dir1 dir2 fns hdir⟩

theorem mem_sections_wrapped (md : String → String) (dir : String → Option String)
    (fns : List String) (s : String) (h : s ∈ (md_to_html md dir fns).1) :
    ∃ inner, s = "<div class=\"chapter\">\n" ++ inner ++ "\n</div>" := by
  rw [md_to_html_sections_eq_filterMap] at h
  obtain ⟨g, hg, hmap⟩ := List.mem_filterMap.mp h
  cases hd : dir g with
  | none => rw [hd] at hmap; simp at hmap
  | some t =>
    rw [hd] at hmap
    simp only [Option.map_some'] at hmap
    injection hmap with hx
    exact ⟨checkboxSubst (md t), by rw [← hx]; rfl⟩

/-- C10: every content unit, chapter or exercise alike, is wrapped in the
identical container carrying the single `chapter` CSS class, so the
assembled body has no structural marker distinguishing the two kinds of
sections. -/
theorem sections_uniform_wrapper (md : String → String)
    (dirC dirE : String → Option String) (s : String)
    (hs : s ∈ (md_to_html md dirC CHAPTERS).1 ++ (md_to_html md dirE EXERCISES).1) :
    ∃ inner, s = "<div class=\"chapter\">\n" ++ inner ++ "\n</div>" := by
  rw [List.mem_append] at hs
  cases hs with
  | inl h => exact mem_sections_wrapped md dirC CHAPTERS s h
  | inr h => exact mem_sections_wrapped md dirE EXERCISES s h

/-- C9: only the exact tokens `[ ]` (single space) and `[x]` (lowercase
x) are replaced: any text in which neither exact token occurs, such as
the variants `[X]`, `[]` and `[  ]`, passes through the substitution
unchanged. -/
theorem checkboxSubst_id_of_no_token (s : String)
    (h1 : hasTok ['[', ' ', ']'] s.data = false)
    (h2 : hasTok ['[', 'x', ']'] s.data = false) :
    checkboxSubst s = s := by
  rw [checkboxSubst_data_eq, replaceAux_no_occurrence _ _ _ h1,
    replaceAux_no_occurrence _ _ _ h2]

/-- Concrete instance of the C1 theorem: two present files and one
removal. -/
theorem section_order_and_removal_witness :
    removalDisk "b.md" = some "B" ∧ "b.md" ∉ ["a.md"] ∧ "b.md" ∉ ([] : List String)
    ∧ (((md_to_html id removalDisk (["a.md"] ++ "b.md" :: [])).1.length =
        ((["a.md"] ++ "b.md" :: []).filter (fun g => (removalDisk g).isSome)).length)
      ∧ (build_document id "" removalDisk removalDisk =
          docHead "" ++ COVER ++ "\n" ++ build_toc TOC_ENTRIES ++ "\n"
            ++ String.join ((md_to_html id removalDisk CHAPTERS).1
              ++ (md_to_html id removalDisk EXERCISES).1)
            ++ docTail)
      ∧ ((md_to_html id removalDisk (["a.md"] ++ "b.md" :: [])).1 =
          (md_to_html id removalDisk ["a.md"]).1
            ++ wrapChapter (checkboxSubst (id "B")) :: (md_to_html id removalDisk []).1)
      ∧ ((md_to_html id (fun g => if g = "b.md" then none else removalDisk g)
            (["a.md"] ++ "b.md" :: [])).1 =
          (md_to_html id removalDisk ["a.md"]).1 ++ (md_to_html id removalDisk []).1)
      ∧ ((md_to_html id (fun g => if g = "b.md" then none else removalDisk g)
            (["a.md"] ++ "b.md" :: [])).1.length + 1 =
          (md_to_html id removalDisk (["a.md"] ++ "b.md" :: [])).1.length)) :=
  ⟨by decide, by decide, by decide,
    section_order_and_removal id removalDisk removalDisk "" ["a.md"] [] "b.md" "B"
      (by decide) (by decide) (by decide)⟩

/-- Concrete instance of the C3 theorem: the configured file `c.md` is
absent from `removalDisk`. -/
theorem missing_unit_nonfatal_witness :
    "c.md" ∈ ["a.md", "c.md"] ∧ removalDisk "c.md" = none
    ∧ ("c.md" ∈ (md_to_html id removalDisk ["a.md", "c.md"]).2
      ∧ (md_to_html id removalDisk ["a.md", "c.md"]).2 =
          ["a.md", "c.md"].filter (fun g => (removalDisk g).isNone)
      ∧ (md_to_html id removalDisk ["a.md", "c.md"]).1 =
          ["a.md", "c.md"].filterMap
            (fun g => (removalDisk g).map (fun t => wrapChapter (checkboxSubst (id t))))
      ∧ (∀ css, ∃ out,
          build_document_run id (some css) removalDisk removalDisk = Except.ok out)) :=
  ⟨by decide, by decide,
    missing_unit_nonfatal id removalDisk removalDisk ["a.md", "c.md"] "c.md"
      (by decide) (by decide)⟩

/-- Concrete instance of the C4 theorem: a run from a state with no style
sheet. -/
theorem missing_style_aborts_witness :
    noStyleState.style_file = none
    ∧ (main_run id true EngineOutcome.ok noStyleState =
        ({ noStyleState with output_dir_exists := true }, [], some BuildErr.styleUnreadable)
      ∧ (main_run id true EngineOutcome.ok noStyleState).1.html_file = noStyleState.html_file
      ∧ (main_run id true EngineOutcome.ok noStyleState).1.pdf_file = noStyleState.pdf_file
      ∧ (main_run id true EngineOutcome.ok noStyleState).2.1 = []
      ∧ Event.engineStarted ∉ (main_run id true EngineOutcome.ok noStyleState).2.1
      ∧ (∀ c, Event.htmlWritten c ∉ (main_run id true EngineOutcome.ok noStyleState).2.1)) :=
  ⟨rfl, missing_style_aborts id true EngineOutcome.ok noStyleState rfl⟩

/-- Concrete instance of the C6 theorem: a successful run from
`demoState`. -/
theorem intermediate_artifact_lifecycle_witness :
    demoState.style_file = some "cssText"
    ∧ ((∀ st, (render_pdf "doc" EngineOutcome.ok st).2.1 =
          Event.htmlWritten "doc" :: (withPlaywright (engineBody EngineOutcome.ok)).1
        ∧ (render_pdf "doc" EngineOutcome.ok st).1.html_file = some "doc")
      ∧ (∀ g, unlink_missing_ok g = none)
      ∧ (EngineOutcome.ok = EngineOutcome.ok →
          (main_run id false EngineOutcome.ok demoState).1.html_file = none
          ∧ (main_run id false EngineOutcome.ok demoState).2.2 = none)
      ∧ (EngineOutcome.ok = EngineOutcome.ok →
          (main_run id true EngineOutcome.ok demoState).1.html_file =
            some (build_document id "cssText" demoState.content_dir demoState.exercises_dir)
          ∧ (main_run id true EngineOutcome.ok demoState).2.2 = none)) :=
  ⟨rfl, intermediate_artifact_lifecycle id demoState "cssText" EngineOutcome.ok "doc" rfl⟩

/-- Concrete instance of the C7 theorem. -/
theorem conversion_deterministic_witness :
    ("t" : String) = "t" ∧ (∀ g ∈ ["a.md"], removalDisk g = removalDisk g)
    ∧ (checkboxSubst (id "t") = checkboxSubst (id "t")
      ∧ md_to_html id removalDisk ["a.md"] = md_to_html id removalDisk ["a.md"]) :=
  ⟨rfl, fun _ _ => rfl,
    conversion_deterministic id "t" "t" rfl removalDisk removalDisk ["a.md"]
      (fun _ _ => rfl)⟩

/-- Concrete instance of the C9 theorem: the variants `[X]`, `[]` and
`[  ]` contain neither exact token and pass through unchanged. -/
theorem checkboxSubst_id_of_no_token_witness :
    hasTok ['[', ' ', ']'] "[X][][  ]".data = false
    ∧ hasTok ['[', 'x', ']'] "[X][][  ]".data = false
    ∧ checkboxSubst "[X][][  ]" = "[X][][  ]" :=
  ⟨by decide, by decide, checkboxSubst_id_of_no_token "[X][][  ]" (by decide) (by decide)⟩

/-- Concrete instance of the C10 theorem: the one present chapter's
section is wrapped in the `chapter` container. -/
theorem sections_uniform_wrapper_witness :
    (wrapChapter (checkboxSubst (id "hello")) ∈
      (md_to_html id chapDisk CHAPTERS).1 ++ (md_to_html id chapDisk EXERCISES).1)
    ∧ ∃ inner, wrapChapter (checkboxSubst (id "hello")) =
        "<div class=\"chapter\">\n" ++ inner ++ "\n</div>" := by
  have hmem : wrapChapter (checkboxSubst (id "hello")) ∈
      (md_to_html id chapDisk CHAPTERS).1 ++ (md_to_html id chapDisk EXERCISES).1 := by
    apply List.mem_append_left
    rw [show md_to_html id chapDisk CHAPTERS =
        (wrapChapter (checkboxSubst (id "hello")) ::
          (md_to_html id chapDisk (CHAPTERS.drop 1)).1,
         (md_to_html id chapDisk (CHAPTERS.drop 1)).2) from
      md_to_html_cons_some id chapDisk _ "hello" (CHAPTERS.drop 1) (by decide)]
    exact List.mem_cons_self _ _
  exact ⟨hmem, sections_uniform_wrapper id chapDisk chapDisk
    (wrapChapter (checkboxSubst (id "hello"))) hmem⟩

end Build
